import Mathlib

/-!
Verification of the portfolio web-page scripts (`animation.js` and the main
script file) against their design specification.

The JavaScript is shallowly embedded: DOM class lists become `List String`
with `DOMTokenList` semantics, the `ScrollAnimator` observer/registration
state becomes an explicit record driven by an event trace, and the form
validator / submission flow become pure functions returning effect lists.
Every definition is translated directly from the source files.
-/

namespace Portfolio

/-! ## DOM class-list model

A `DOMTokenList` is modelled as a `List String` without duplicates being
enforced: `add` appends only when absent, `remove` filters, `toggle`
removes when present and adds otherwise (the semantics of
`Element.classList`). -/

inductive ClassMut where
  | add (s : String)
  | remove (s : String)
  | toggle (s : String)
deriving DecidableEq

def classAdd (s : String) (cs : List String) : List String :=
  if s ∈ cs then cs else cs ++ [s]

def classRemove (s : String) (cs : List String) : List String :=
  cs.filter (fun c => c ≠ s)

def applyMut (m : ClassMut) (cs : List String) : List String :=
  match m with
  | .add s => classAdd s cs
  | .remove s => classRemove s cs
  | .toggle s => if s ∈ cs then classRemove s cs else classAdd s cs

def applyMuts (ms : List ClassMut) (cs : List String) : List String :=
  ms.foldl (fun cs m => applyMut m cs) cs

/-- Every `classList` mutation performed anywhere in the two source files:
`animation.js` — `add('animate-visible')` (`handleIntersect`, `animateOnLoad`),
`remove('active')` (`smoothScroll`), `add('page-loaded')`, `add('loading')`,
`remove('loading')` (`PageTransitions.addLoadingAnimation`); the main script —
`toggle('active')` (mobile-menu toggle), `remove('active')` (menu close paths,
`updateActiveNavLink`), `add('active')` (`updateActiveNavLink`),
`remove('error', 'success')`, `add('error')`, `add('success')`
(`validateField`), `remove('success')` (`handleFormSubmission`),
`add('loaded')`, `add('loading')`, `remove('loading')`
(`initializeLoadingState`). -/
def programClassOps : List ClassMut :=
  [ .add "animate-visible"
  , .remove "active"
  , .add "page-loaded"
  , .add "loading"
  , .remove "loading"
  , .toggle "active"
  , .add "active"
  , .remove "error"
  , .remove "success"
  , .add "error"
  , .add "success"
  , .add "loaded" ]

/-! ## ScrollAnimator (animation.js)

`createObserver` builds an `IntersectionObserver` with
`{ root: null, rootMargin: '0px', threshold: 0.1 }` whose callback invokes
`handleIntersect(entry.target)` for each entry with `isIntersecting` true.
`observeElements` registers every element matching the six animation-intent
selectors, guarded by the `animatedElements` set.  The observer is never
told to `unobserve` anything. -/

structure ObserverOptions where
  rootMargin : String
  threshold : ℚ
deriving DecidableEq

/-- The options object built in `ScrollAnimator.createObserver`
(`root: null` omitted: the viewport root carries no data). -/
def observerOptions : ObserverOptions :=
  { rootMargin := "0px", threshold := 1/10 }

/-- The stagger delay computed in `ScrollAnimator.handleIntersect`:
`(rect.top % 300) * 0.1`, in milliseconds.  JavaScript `%` is the
truncating remainder (`Int.tmod`); `rect.top` may be any integer. -/
def staggerDelay (top : ℤ) : ℚ :=
  ((Int.tmod top 300 : ℤ) : ℚ) * (1/10)

/-- State of a `ScrollAnimator` instance together with the call history we
reason about: `animatedElements` is the JS `Set`, `observeCalls` records
every `observer.observe(e)` call in order, `handlerCalls` records every
invocation of `handleIntersect`, and `visible` the elements carrying the
`animate-visible` class.  Elements are identified by `Nat` ids. -/
structure AnimState where
  animatedElements : List Nat
  observeCalls : List Nat
  handlerCalls : List Nat
  visible : List Nat
deriving DecidableEq

def initAnimState : AnimState := ⟨[], [], [], []⟩

/-- Body of the `forEach` in `ScrollAnimator.observeElements`: if the
element is not in `animatedElements`, call `observer.observe` on it and
add it to the set. -/
def observeOne (s : AnimState) (e : Nat) : AnimState :=
  if e ∈ s.animatedElements then s
  else { s with
          observeCalls := s.observeCalls ++ [e]
          animatedElements := s.animatedElements ++ [e] }

/-- Sweep registration `ScrollAnimator.observeElements`, applied to the list of elements the
selector sweep matched. -/
def observeElements (dom : List Nat) (s : AnimState) : AnimState :=
  dom.foldl observeOne s

/-- Handler `ScrollAnimator.handleIntersect`: schedules `classList.add('animate-visible')`
after `staggerDelay`.  The timer outcome is folded into the state (the class
add is recorded in `visible`; `classAdd` semantics, so a repeat is a no-op). -/
def handleIntersect (s : AnimState) (e : Nat) : AnimState :=
  { s with
      handlerCalls := s.handlerCalls ++ [e]
      visible := if e ∈ s.visible then s.visible else s.visible ++ [e] }

/-- The external events driving the animator: a selector sweep
(`observeElements`, run on DOM load and on every resize) and a viewport
crossing — the browser delivering an entry with `isIntersecting = true`
because an observed element's intersection ratio rose past the threshold.
Since the source never calls `unobserve`, an element stays observed once
`observer.observe` ran for it. -/
inductive AnimEvent where
  | sweep (dom : List Nat)
  | cross (e : Nat)

def stepAnim (s : AnimState) (ev : AnimEvent) : AnimState :=
  match ev with
  | .sweep dom => observeElements dom s
  | .cross e => if e ∈ s.animatedElements then handleIntersect s e else s

def runAnim (s : AnimState) (evs : List AnimEvent) : AnimState :=
  evs.foldl stepAnim s

/-! ### Observer construction and the missing-capability path -/

structure ObserverHandle where
  options : ObserverOptions

/-- Construction `ScrollAnimator.createObserver` evaluates `new IntersectionObserver(cb, options)`
unconditionally.  In an environment where the primitive is absent the
identifier lookup throws a `ReferenceError`; there is no feature test and
no fallback branch anywhere in the source. -/
def createObserver (hasIntersectionObserver : Bool) : Except String ObserverHandle :=
  if hasIntersectionObserver then
    Except.ok ⟨observerOptions⟩
  else
    Except.error "ReferenceError: IntersectionObserver is not defined"

/-- The `ScrollAnimator` constructor: `init` runs `createObserver` first;
when that throws, `bindEvents`/`animateOnLoad` never run and no element is
ever revealed. -/
def scrollAnimatorConstruct (hasIntersectionObserver : Bool) : Except String AnimState :=
  match createObserver hasIntersectionObserver with
  | .error e => .error e
  | .ok _ => .ok initAnimState

/-! ## Form validator (main script, `PortfolioApp`) -/

/-- The whitespace characters recognised by `String.prototype.trim` and the
regex class `\s` (the ASCII portion, which is all the program's data uses). -/
def jsWhitespaceChars : List Char :=
  [' ', '\t', '\n', '\r', '\x0b', '\x0c']

def isJsSpace (c : Char) : Bool :=
  jsWhitespaceChars.contains c

def trimLeftL (l : List Char) : List Char :=
  l.dropWhile isJsSpace

def trimRightL (l : List Char) : List Char :=
  (l.reverse.dropWhile isJsSpace).reverse

def jsTrimL (l : List Char) : List Char :=
  trimRightL (trimLeftL l)

/-- Model of `String.prototype.trim`. -/
def jsTrim (s : String) : String :=
  ⟨jsTrimL s.data⟩

/-- The character class `[^\s@]` of the email regex. -/
def emailAtomChar (c : Char) : Bool :=
  !isJsSpace c && !(c == '@')

/-- Backtracking matcher for `p+` followed by a continuation: consume one
`p`-character, then either hand the rest to `k` or keep consuming. -/
def matchPlus (p : Char → Bool) (k : List Char → Bool) : List Char → Bool
  | [] => false
  | c :: cs => p c && (k cs || matchPlus p k cs)

/-- Test `/^[^\s@]+@[^\s@]+\.[^\s@]+$/.test(value)` from `validateField`. -/
def emailRegexTest (s : String) : Bool :=
  matchPlus emailAtomChar (fun r1 =>
    match r1 with
    | '@' :: r2 =>
        matchPlus emailAtomChar (fun r3 =>
          match r3 with
          | '.' :: r4 => matchPlus emailAtomChar (fun r5 => r5.isEmpty) r4
          | _ => false) r2
    | _ => false) s.data

/-- A form field as `validateField` sees it: its `type` attribute, its
`required` flag and its raw `value`. -/
structure Field where
  type : String
  required : Bool
  value : String
deriving DecidableEq

/-- Outcome of `PortfolioApp.validateField`: `ok = true` means the field
got the `success` class (and the function returned `true`); `ok = false`
means the `error` class plus the given message. -/
structure ValidationResult where
  ok : Bool
  message : Option String
deriving DecidableEq

/-- Blur handler `PortfolioApp.validateField`: works on `field.value.trim()`; an email
field failing the regex is an error, a required field with empty (trimmed)
value is an error, anything else is a success. -/
def validateField (field : Field) : ValidationResult :=
  let value := jsTrim field.value
  if field.type = "email" ∧ emailRegexTest value = false then
    { ok := false, message := some "Please enter a valid email address" }
  else if field.required = true ∧ value = "" then
    { ok := false, message := some "This field is required" }
  else
    { ok := true, message := none }

/-! ## Form submission (main script) -/

/-- An apostrophe, kept out of string literals. -/
def apos : String := String.mk [Char.ofNat 39]

def successMessage : String :=
  "Message sent successfully! I" ++ apos ++ "ll get back to you soon."

/-- The UI effects `handleFormSubmission` performs, in order. -/
inductive SubmitEffect where
  | notify (message kind : String)
  | setButtonText (label : String)
  | setButtonDisabled (disabled : Bool)
  | wait (ms : Nat)
  | formReset
  | clearSuccessClasses
deriving DecidableEq

/-- Submission flow `PortfolioApp.handleFormSubmission` as its ordered effect trace.
All inputs are validated (`isValid` = every `validateField` returned
`true`); on failure only the error banner is shown; on success the button
label becomes "Sending..." and the button is disabled, the simulated API
call waits 2000 ms (the promise never rejects, so the `catch` branch is
dead), then the success banner, `form.reset()`, clearing of the `success`
classes, and the `finally` block restoring the label and re-enabling the
button. -/
def handleFormSubmission (inputs : List Field) (originalText : String) :
    List SubmitEffect :=
  if inputs.all (fun f => (validateField f).ok) = false then
    [ .notify "Please fix the errors in the form" "error" ]
  else
    [ .setButtonText "Sending..."
    , .setButtonDisabled true
    , .wait 2000
    , .notify successMessage "success"
    , .formReset
    , .clearSuccessClasses
    , .setButtonText originalText
    , .setButtonDisabled false ]

/-- Timeline of `PortfolioApp.showNotification`: any existing banner is
replaced, the new one slides in after 100 ms, slides out after 5000 ms and
is removed from the document 300 ms later. -/
structure NotificationView where
  message : String
  kind : String
  slideInAtMs : Nat
  dismissAtMs : Nat
  removeAtMs : Nat
deriving DecidableEq

def showNotification (message kind : String) : NotificationView :=
  { message := message
  , kind := kind
  , slideInAtMs := 100
  , dismissAtMs := 5000
  , removeAtMs := 5000 + 300 }

/-! ## Project modal (main script) -/

structure ProjectDetails where
  overview : String
  features : List String
  challenges : String
  demoLink : String
  githubLink : String
deriving DecidableEq

structure ProjectCard where
  title : String
  description : String
  tech : List String
  image : String
deriving DecidableEq

structure ProjectData where
  title : String
  description : String
  tech : List String
  image : String
  details : ProjectDetails
deriving DecidableEq

/-- The static `projectDetails` object literal in `getProjectData`,
keyed by project title. -/
def projectDetailsTable : List (String × ProjectDetails) :=
  [ ("E-Commerce Platform",
      { overview := "Platform e-commerce modern dengan React, Node.js, dan integrasi payment gateway yang lengkap."
      , features :=
          [ "User authentication dan authorization"
          , "Shopping cart dan checkout process"
          , "Payment gateway integration"
          , "Admin dashboard untuk management"
          , "Real-time inventory tracking" ]
      , challenges := "Mengintegrasikan multiple payment methods dan menjaga keamanan transaksi."
      , demoLink := "#"
      , githubLink := "#" })
  , ("Warung Makan Website",
      { overview := "A complete website for a local restaurant featuring menu display, online ordering, and customer management."
      , features :=
          [ "Online Menu Display"
          , "Order Management System"
          , "WhatsApp Integration"
          , "Admin Dashboard" ]
      , challenges := "Creating a responsive design that works well on all mobile devices."
      , demoLink := "#"
      , githubLink := "#" })
  , ("Finance Company Logo",
      { overview := "Professional logo design focusing on trust and stability."
      , features :=
          [ "Vector Format"
          , "Brand Guidelines"
          , "Multiple Variations"
          , "Social Media Assets" ]
      , challenges := "Conveying trust and modernism simultaneously."
      , demoLink := "#"
      , githubLink := "#" })
  ]

/-- The `defaultDetail` fallback in `getProjectData`: its overview is the
card's own description. -/
def defaultDetail (description : String) : ProjectDetails :=
  { overview := description
  , features := ["Features details available upon request"]
  , challenges := "Standard development challenges"
  , demoLink := "#"
  , githubLink := "#" }

/-- Lookup `PortfolioApp.getProjectData`: read title/description/tech/image off
the card, then `projectDetails[title] || defaultDetail`. -/
def getProjectData (card : ProjectCard) : ProjectData :=
  { title := card.title
  , description := card.description
  , tech := card.tech
  , image := card.image
  , details := (projectDetailsTable.lookup card.title).getD (defaultDetail card.description) }

/-- What the click handler installed by `initializeProjectModals` does. -/
inductive LinkAction where
  | openModal (d : ProjectData)
  | openExternal (href : String)
deriving DecidableEq

/-- The `project-link` click handler: `href === '#' || href === ''` opens
the modal built from `getProjectData`; a real link opens in a new tab. -/
def projectLinkClick (href : String) (card : ProjectCard) : LinkAction :=
  if href = "#" ∨ href = "" then
    .openModal (getProjectData card)
  else
    .openExternal href

/-- Close path `closeProjectModal` removes the modal from the document after a fixed
300 ms fade. -/
def modalRemoveDelayMs : Nat := 300

/-! ## Helper lemmas -/

theorem mem_classAdd_of_mem {c s : String} {cs : List String} (h : c ∈ cs) :
    c ∈ classAdd s cs := by
  unfold classAdd
  split
  · exact h
  · exact List.mem_append_left _ h

theorem mem_classAdd_self (s : String) (cs : List String) :
    s ∈ classAdd s cs := by
  unfold classAdd
  split
  · assumption
  · exact List.mem_append_right _ (List.mem_singleton.mpr rfl)

theorem mem_classRemove_of_mem {c s : String} {cs : List String}
    (hne : c ≠ s) (h : c ∈ cs) : c ∈ classRemove s cs := by
  unfold classRemove
  exact List.mem_filter.mpr ⟨h, by simp [hne]⟩

theorem mem_applyToggle_of_ne {c s : String} {cs : List String}
    (hne : c ≠ s) (h : c ∈ cs) : c ∈ applyMut (ClassMut.toggle s) cs := by
  show c ∈ if s ∈ cs then classRemove s cs else classAdd s cs
  by_cases hmem : s ∈ cs
  · rw [if_pos hmem]; exact mem_classRemove_of_mem hne h
  · rw [if_neg hmem]; exact mem_classAdd_of_mem h

/-- Single-step preservation: no `classList` mutation occurring in the
program removes `animate-visible`. -/
theorem visible_preserved_by_programOp {m : ClassMut} (hm : m ∈ programClassOps)
    {cs : List String} (h : "animate-visible" ∈ cs) :
    "animate-visible" ∈ applyMut m cs := by
  fin_cases hm <;>
    first
      | exact mem_classAdd_of_mem h
      | exact mem_classRemove_of_mem (by decide) h
      | exact mem_applyToggle_of_ne (by decide) h

/-- Invariant relating `observer.observe` call history to the
`animatedElements` set: each element has been observed exactly once if it
is in the set, never otherwise. -/
def RegCountInv (s : AnimState) : Prop :=
  ∀ e, s.observeCalls.count e = (if e ∈ s.animatedElements then 1 else 0)

theorem regCountInv_observeOne {s : AnimState} (h : RegCountInv s) (e : Nat) :
    RegCountInv (observeOne s e) := by
  intro x
  unfold observeOne
  split
  · exact h x
  · rename_i he
    by_cases hxe : x = e
    · subst hxe
      have h0 : s.observeCalls.count x = 0 := by simp [h x, he]
      simp [List.count_append, h0]
    · have := h x
      simp only [List.count_append]
      simp [List.count_singleton, hxe, this, List.mem_append,
        List.mem_singleton, Ne.symm hxe]

theorem regCountInv_observeElements (dom : List Nat) :
    ∀ s : AnimState, RegCountInv s → RegCountInv (observeElements dom s) := by
  induction dom with
  | nil => intro s h; exact h
  | cons d ds ih =>
    intro s h
    exact ih _ (regCountInv_observeOne h d)

theorem regCountInv_step {s : AnimState} (h : RegCountInv s) (ev : AnimEvent) :
    RegCountInv (stepAnim s ev) := by
  cases ev with
  | sweep dom => exact regCountInv_observeElements dom s h
  | cross e =>
    show RegCountInv (if e ∈ s.animatedElements then handleIntersect s e else s)
    by_cases he : e ∈ s.animatedElements
    · rw [if_pos he]; intro x; exact h x
    · rw [if_neg he]; exact h

theorem regCountInv_runAnim (evs : List AnimEvent) :
    ∀ s : AnimState, RegCountInv s → RegCountInv (runAnim s evs) := by
  induction evs with
  | nil => intro s h; exact h
  | cons ev evs ih =>
    intro s h
    exact ih _ (regCountInv_step h ev)

/-- A `dropWhile` skips over a wholly satisfying block. -/
theorem dropWhile_append_of_all {p : Char → Bool} {w : List Char}
    (hw : ∀ c ∈ w, p c = true) (l : List Char) :
    (w ++ l).dropWhile p = l.dropWhile p := by
  induction w with
  | nil => rfl
  | cons c w ih =>
    have hc : p c = true := hw c (List.mem_cons_self c w)
    have hw' : ∀ c ∈ w, p c = true := fun x hx => hw x (List.mem_cons_of_mem c hx)
    simp [List.dropWhile_cons, hc, ih hw']

/-- A `dropWhile` ignores a suffix when it already stops inside the prefix. -/
theorem dropWhile_append_of_ne_nil {p : Char → Bool} {l : List Char}
    (hl : l.dropWhile p ≠ []) (l' : List Char) :
    (l ++ l').dropWhile p = l.dropWhile p ++ l' := by
  rw [List.dropWhile_append]
  simp [List.isEmpty_iff, hl]

theorem trimLeftL_all_space {l : List Char} (h : ∀ c ∈ l, isJsSpace c = true) :
    trimLeftL l = [] :=
  List.dropWhile_eq_nil_iff.mpr h

theorem trimRightL_append_space {l w : List Char}
    (hw : ∀ c ∈ w, isJsSpace c = true) :
    trimRightL (l ++ w) = trimRightL l := by
  unfold trimRightL
  rw [List.reverse_append, dropWhile_append_of_all]
  intro c hc
  exact hw c (List.mem_reverse.mp hc)

/-- Trimming is invariant under whitespace padding on either side. -/
theorem jsTrimL_pad {pre suf : List Char}
    (hpre : ∀ c ∈ pre, isJsSpace c = true)
    (hsuf : ∀ c ∈ suf, isJsSpace c = true) (v : List Char) :
    jsTrimL (pre ++ v ++ suf) = jsTrimL v := by
  unfold jsTrimL
  have h1 : trimLeftL (pre ++ (v ++ suf)) = trimLeftL (v ++ suf) :=
    dropWhile_append_of_all hpre _
  rw [List.append_assoc, h1]
  by_cases hv : trimLeftL v = []
  · have hvall : ∀ c ∈ v, isJsSpace c = true := List.dropWhile_eq_nil_iff.mp hv
    have hall : ∀ c ∈ v ++ suf, isJsSpace c = true := by
      intro c hc
      rcases List.mem_append.mp hc with h | h
      · exact hvall c h
      · exact hsuf c h
    rw [trimLeftL_all_space hall, hv]
  · rw [show trimLeftL (v ++ suf) = trimLeftL v ++ suf from
        dropWhile_append_of_ne_nil hv suf,
      trimRightL_append_space hsuf]

/-- Congruence: `validateField` only reads the value through `jsTrim`. -/
theorem validateField_congr_trim (f g : Field)
    (ht : f.type = g.type) (hr : f.required = g.required)
    (hv : jsTrim f.value = jsTrim g.value) :
    validateField f = validateField g := by
  unfold validateField
  rw [ht, hr, hv]

/-! ## Claim theorems -/

/-- C1 counterexample. The claim says the reveal handler is invoked exactly
once per element and never again on later viewport crossings.  In the trace
where element `0` is registered by a sweep, crosses into the viewport once
and then (after scrolling away) crosses a second time, `handleIntersect`
runs twice for it: the source never calls `observer.unobserve`, so the
observer keeps delivering intersection entries. -/
theorem reveal_handler_reinvoked_cex :
    (runAnim initAnimState
      [AnimEvent.sweep [0], AnimEvent.cross 0, AnimEvent.cross 0]).handlerCalls.count 0
      = 2 := by decide

/-- C1 (amended): the observer watches with threshold 0.1 (at least 10% of
the bounding box visible) and the reveal handler is invoked on every
viewport crossing of a registered element — the first and every later one,
since the element is never unobserved; re-invocation merely re-applies the
already-present terminal class (`classList.add` is idempotent). -/
theorem reveal_handler_on_every_crossing :
    observerOptions.threshold = 1/10 ∧
    (∀ (s : AnimState) (e : Nat), e ∈ s.animatedElements →
      (stepAnim s (AnimEvent.cross e)).handlerCalls.count e
        = s.handlerCalls.count e + 1) ∧
    (∀ cs : List String,
      "animate-visible" ∈ applyMut (ClassMut.add "animate-visible") cs) := by
  refine ⟨rfl, ?_, ?_⟩
  · intro s e he
    simp [stepAnim, he, handleIntersect, List.count_append]
  · intro cs
    exact mem_classAdd_self _ _

theorem reveal_handler_on_every_crossing_witness :
    (0 : Nat) ∈ ([0] : List Nat) ∧
    (stepAnim ⟨[0], [0], [], []⟩ (AnimEvent.cross 0)).handlerCalls.count 0
      = (AnimState.mk [0] [0] [] []).handlerCalls.count 0 + 1 :=
  ⟨by decide, reveal_handler_on_every_crossing.2.1 ⟨[0], [0], [], []⟩ 0 (by decide)⟩

/-- C2: once `animate-visible` is on an element's class list, no sequence
of class mutations drawn from the program's `classList` operations ever
removes it — the program adds it but never removes or toggles it. -/
theorem animate_visible_never_removed (ms : List ClassMut)
    (hms : ∀ m ∈ ms, m ∈ programClassOps) (cs : List String)
    (h : "animate-visible" ∈ cs) :
    "animate-visible" ∈ applyMuts ms cs := by
  induction ms generalizing cs with
  | nil => exact h
  | cons m ms ih =>
    have hm : m ∈ programClassOps := hms m (List.mem_cons_self m ms)
    have hms' : ∀ x ∈ ms, x ∈ programClassOps :=
      fun x hx => hms x (List.mem_cons_of_mem m hx)
    exact ih hms' _ (visible_preserved_by_programOp hm h)

theorem animate_visible_never_removed_witness :
    (∀ m ∈ [ClassMut.remove "error", ClassMut.toggle "active",
             ClassMut.remove "success"], m ∈ programClassOps) ∧
    "animate-visible" ∈ applyMuts
      [ClassMut.remove "error", ClassMut.toggle "active", ClassMut.remove "success"]
      ["animate-visible", "error", "active"] :=
  ⟨by decide,
   animate_visible_never_removed _ (by decide) _ (by decide)⟩

/-- C3: the delay passed to `setTimeout` in `handleIntersect` is
`(top % 300) * 0.1` milliseconds — for the nonnegative offsets the spec
speaks about this is the mathematical `top mod 300` scaled by `0.1`; in
particular offset 350 gives 5 ms and offset 1000 gives 10 ms. -/
theorem stagger_delay_formula :
    (∀ y : ℤ, 0 ≤ y → staggerDelay y = ((y % 300 : ℤ) : ℚ) * (1/10)) ∧
    staggerDelay 350 = 5 ∧ staggerDelay 1000 = 10 := by
  refine ⟨?_, ?_, ?_⟩
  · intro y hy
    rw [staggerDelay, Int.tmod_eq_emod hy (by norm_num)]
  · have h1 : Int.tmod 350 300 = 50 := by decide
    rw [staggerDelay, h1]; norm_num
  · have h1 : Int.tmod 1000 300 = 100 := by decide
    rw [staggerDelay, h1]; norm_num

theorem stagger_delay_formula_witness :
    (0 : ℤ) ≤ 350 ∧ staggerDelay 350 = (((350 : ℤ) % 300 : ℤ) : ℚ) * (1/10) :=
  ⟨by decide, stagger_delay_formula.1 350 (by decide)⟩

/-- C4 evaluated at the failing input: in an environment without the
intersection-observation primitive, `createObserver` throws (the source
calls `new IntersectionObserver` with no feature test and no fallback), so
the `ScrollAnimator` constructor crashes and nothing is revealed —
contradicting the specified "degrade to reveal immediately" behaviour. -/
theorem missing_observer_crashes :
    scrollAnimatorConstruct false =
      Except.error "ReferenceError: IntersectionObserver is not defined" ∧
    createObserver false =
      Except.error "ReferenceError: IntersectionObserver is not defined" :=
  ⟨rfl, rfl⟩

/-- C5: on blur, an email field valued `"not-an-email"` is classified
error and one valued `"a@b.co"` success, exactly by the regex
`^[^\s@]+@[^\s@]+\.[^\s@]+$` — independently of the `required` flag. -/
theorem email_classification (r : Bool) :
    (validateField ⟨"email", r, "not-an-email"⟩).ok = false ∧
    (validateField ⟨"email", r, "a@b.co"⟩).ok = true ∧
    emailRegexTest "not-an-email" = false ∧
    emailRegexTest "a@b.co" = true := by
  cases r <;> exact ⟨by decide, by decide, by decide, by decide⟩

/-- C6: submitting a form whose fields all validate produces exactly the
effect sequence of the source: label set to "Sending..." and button
disabled, the fixed 2000 ms simulated delay, then the success banner,
`form.reset()`, removal of the `success` markers, and the `finally` block
restoring the original label (and re-enabling the button). -/
theorem valid_submission_sequence (inputs : List Field) (originalText : String)
    (h : inputs.all (fun f => (validateField f).ok) = true) :
    handleFormSubmission inputs originalText =
      [ SubmitEffect.setButtonText "Sending..."
      , SubmitEffect.setButtonDisabled true
      , SubmitEffect.wait 2000
      , SubmitEffect.notify successMessage "success"
      , SubmitEffect.formReset
      , SubmitEffect.clearSuccessClasses
      , SubmitEffect.setButtonText originalText
      , SubmitEffect.setButtonDisabled false ] := by
  unfold handleFormSubmission
  simp [h]

theorem valid_submission_sequence_witness :
    handleFormSubmission
      [⟨"email", true, "a@b.co"⟩, ⟨"text", true, "hello"⟩] "Send Message" =
      [ SubmitEffect.setButtonText "Sending..."
      , SubmitEffect.setButtonDisabled true
      , SubmitEffect.wait 2000
      , SubmitEffect.notify successMessage "success"
      , SubmitEffect.formReset
      , SubmitEffect.clearSuccessClasses
      , SubmitEffect.setButtonText "Send Message"
      , SubmitEffect.setButtonDisabled false ] :=
  valid_submission_sequence _ _ (by decide)

/-- C7: if any field fails validation, the submission shows only the
transient error banner (auto-removed 5300 ms after being shown) and
aborts: no button disabling, no label change, no simulated network wait,
no form reset. -/
theorem invalid_submission_aborts (inputs : List Field) (originalText : String)
    (h : inputs.all (fun f => (validateField f).ok) = false) :
    handleFormSubmission inputs originalText =
      [ SubmitEffect.notify "Please fix the errors in the form" "error" ] ∧
    (∀ e ∈ handleFormSubmission inputs originalText,
      (∀ b, e ≠ SubmitEffect.setButtonDisabled b) ∧
      (∀ t, e ≠ SubmitEffect.setButtonText t) ∧
      (∀ n, e ≠ SubmitEffect.wait n) ∧
      e ≠ SubmitEffect.formReset) ∧
    (showNotification "Please fix the errors in the form" "error").removeAtMs
      = 5300 := by
  have heq : handleFormSubmission inputs originalText =
      [ SubmitEffect.notify "Please fix the errors in the form" "error" ] := by
    unfold handleFormSubmission
    simp [h]
  refine ⟨heq, ?_, rfl⟩
  rw [heq]
  intro e he
  rw [List.mem_singleton] at he
  subst he
  exact ⟨fun b => by simp, fun t => by simp, fun n => by simp, by simp⟩

theorem invalid_submission_aborts_witness :
    handleFormSubmission [⟨"email", true, "not-an-email"⟩] "Send Message" =
      [ SubmitEffect.notify "Please fix the errors in the form" "error" ] :=
  (invalid_submission_aborts _ _ (by decide)).1

/-- C8: element registration is idempotent keyed by element identity — in
any event trace (the initial-load sweep, any number of resize sweeps and
any viewport crossings), `observer.observe` is called at most once per
element, because `observeElements` guards on the `animatedElements` set. -/
theorem registration_idempotent (evs : List AnimEvent) (e : Nat) :
    (runAnim initAnimState evs).observeCalls.count e ≤ 1 := by
  have h := regCountInv_runAnim evs initAnimState
    (by intro x; simp [initAnimState])
  rw [h e]
  split <;> omega

/-- C9: clicking a project link whose `href` is `"#"` (or empty) opens the
modal populated from `getProjectData`; a title present in the lookup table
yields that Project Record's detail block, and any unmapped title yields
the synthesized default whose overview is the card's own description. -/
theorem project_modal_lookup :
    (∀ card : ProjectCard,
      projectLinkClick "#" card = LinkAction.openModal (getProjectData card)) ∧
    (∀ card : ProjectCard,
      projectLinkClick "" card = LinkAction.openModal (getProjectData card)) ∧
    (∀ (card : ProjectCard) (d : ProjectDetails),
      projectDetailsTable.lookup card.title = some d →
      (getProjectData card).details = d) ∧
    (∀ card : ProjectCard,
      projectDetailsTable.lookup card.title = none →
      (getProjectData card).details = defaultDetail card.description ∧
      (getProjectData card).details.overview = card.description) := by
  refine ⟨?_, ?_, ?_, ?_⟩
  · intro card; simp [projectLinkClick]
  · intro card; simp [projectLinkClick]
  · intro card d h; simp [getProjectData, h]
  · intro card h
    constructor
    · simp [getProjectData, h]
    · simp [getProjectData, h, defaultDetail]

theorem project_modal_lookup_witness :
    (getProjectData ⟨"Finance Company Logo", "Logo for a finance brand.",
        ["Illustrator"], "logo.png"⟩).details =
      { overview := "Professional logo design focusing on trust and stability."
      , features :=
          [ "Vector Format"
          , "Brand Guidelines"
          , "Multiple Variations"
          , "Social Media Assets" ]
      , challenges := "Conveying trust and modernism simultaneously."
      , demoLink := "#"
      , githubLink := "#" } ∧
    (getProjectData ⟨"Unmapped Title", "Some card description.",
        [], "x.png"⟩).details.overview = "Some card description." :=
  ⟨project_modal_lookup.2.2.1 _ _ (by decide),
   (project_modal_lookup.2.2.2 _ (by decide)).2⟩

/-- C10: classification works on the whitespace-trimmed value: a required
field whose value is all whitespace (of any field type) is classified
error, and padding an email field's value with leading or trailing
whitespace leaves the classification unchanged. -/
theorem classification_uses_trimmed_value :
    (∀ (t v : String), (∀ c ∈ v.data, isJsSpace c = true) →
      (validateField ⟨t, true, v⟩).ok = false) ∧
    (∀ (r : Bool) (pre mid suf : String),
      (∀ c ∈ pre.data, isJsSpace c = true) →
      (∀ c ∈ suf.data, isJsSpace c = true) →
      validateField ⟨"email", r, pre ++ mid ++ suf⟩
        = validateField ⟨"email", r, mid⟩) := by
  constructor
  · intro t v hv
    have htrim : jsTrim v = "" := by
      unfold jsTrim jsTrimL
      rw [trimLeftL_all_space hv]
      rfl
    unfold validateField
    rw [htrim]
    by_cases ht : t = "email"
    · have : emailRegexTest "" = false := rfl
      simp [ht, this]
    · simp [ht]
  · intro r pre mid suf hpre hsuf
    have htrim : jsTrim (pre ++ mid ++ suf) = jsTrim mid := by
      unfold jsTrim
      have hdata : (pre ++ mid ++ suf).data = pre.data ++ mid.data ++ suf.data := by
        simp [String.data_append]
      rw [hdata, jsTrimL_pad hpre hsuf]
    exact validateField_congr_trim _ _ rfl rfl htrim

theorem classification_uses_trimmed_value_witness :
    (validateField ⟨"text", true, "   "⟩).ok = false ∧
    validateField ⟨"email", true, "  " ++ "a@b.co" ++ " "⟩
      = validateField ⟨"email", true, "a@b.co"⟩ := by
  refine ⟨classification_uses_trimmed_value.1 "text" "   " (by decide), ?_⟩
  exact classification_uses_trimmed_value.2 true "  " "a@b.co" " "
    (by decide) (by decide)

end Portfolio
